import Mathlib

/-!
Shallow embedding of the dentist-office Twilio IVR backend (`src/app.py`,
FastAPI + Twilio, keypad-only).  Each webhook handler becomes a pure Lean
function from (environment, session store, form fields) to (new store,
response verbs, side effects).  TwiML responses are lists of `Verb`s; the
Twilio client call in `send_sms_safe` is modelled by a `ProviderOutcome`
field of the environment (success, a `TwilioRestException`, or another
exception), so the try/except wrapping becomes a total function.
-/

namespace IVR

/-- Outcome of the provider call `client.messages.create(...)`: it either
succeeds, raises a `TwilioRestException`, or raises some other exception. -/
inductive ProviderOutcome where
  | success
  | twilioError (msg : String)
  | otherError (msg : String)
deriving DecidableEq, Repr

/-- The environment variables the app reads (`os.getenv`, missing modelled as
`""`, matching the falsiness test `if not sid or ...`), together with the
provider behaviour for message dispatch. -/
structure Env where
  twilio_account_sid : String := ""
  twilio_auth_token : String := ""
  twilio_phone_number : String := ""
  office_manager_number : String := ""
  provider : ProviderOutcome := .success
deriving DecidableEq, Repr

/-- Python `str.strip()` over the character list (ASCII whitespace). -/
def pyStripChars (cs : List Char) : List Char :=
  ((cs.dropWhile Char.isWhitespace).reverse.dropWhile Char.isWhitespace).reverse

/-- Python `str.strip()`. -/
def pyStrip (s : String) : String := String.mk (pyStripChars s.data)

/-- Python `str.lower()` (ASCII). -/
def pyLower (s : String) : String := String.mk (s.data.map Char.toLower)

/-- Python `str.upper()` (ASCII). -/
def pyUpper (s : String) : String := String.mk (s.data.map Char.toUpper)

/-- Module-level constant: `OFFICE_MANAGER_NUMBER = os.getenv(..., "").strip()`. -/
def OFFICE_MANAGER_NUMBER (env : Env) : String := pyStrip env.office_manager_number

def PRACTICE_NAME : String := "Luke's Office"

def OFFICE_HOURS_TEXT : String := "Our office hours are Monday through Friday, 8 A M to 5 P M."

def SCHEDULING_LINK : String := "https://app.nexhealth.com/appt/sonoran-hills-dental"

def DIRECTIONS_LINK : String := "https://maps.google.com/?q=4909+E+Chandler+Blvd+Ste+501,+Phoenix,+AZ+85048"

def MAX_VOICEMAIL_SECONDS : Nat := 180

/-- One per-call session record: the string-keyed dict stored in `CALL_STATE`.
Each field is `none` while its key is absent.  `recording_url` is set from
`form.get("RecordingUrl")`, which may itself be `None`, hence the nested
option (key present, value possibly `None`). -/
structure CallRecord where
  from_number : Option String := none
  path : Option String := none
  intent : Option String := none
  pain_level : Option Int := none
  symptoms_flag : Option Bool := none
  recording_url : Option (Option String) := none
deriving DecidableEq, Repr

/-- `CALL_STATE`: the in-memory dict keyed by CallSid. -/
abbrev Store := List (String × CallRecord)

def lookupState : Store → String → Option CallRecord
  | [], _ => none
  | (k, r) :: rest, key => if k = key then some r else lookupState rest key

/-- Dict assignment `CALL_STATE[k] = r`: overwrite in place, else append. -/
def setState : Store → String → CallRecord → Store
  | [], key, r => [(key, r)]
  | (k, r') :: rest, key, r =>
      if k = key then (key, r) :: rest else (k, r') :: setState rest key r

/-- The key `_get_state` actually uses: empty CallSid is replaced by the
fixed string `"UNKNOWN_CALLSID"`. -/
def normSid (call_sid : String) : String :=
  if call_sid = "" then "UNKNOWN_CALLSID" else call_sid

/-- `_get_state`: create-on-first-touch lookup.  Returns the (possibly
extended) store and the record the Python code takes a mutable alias to. -/
def _get_state (store : Store) (call_sid : String) : Store × CallRecord :=
  let k := normSid call_sid
  match lookupState store k with
  | some r => (store, r)
  | none => (setState store k {}, {})

/-- `send_sms_safe`: wraps the Twilio send in try/except and converts every
failure into a `(False, message)` result. -/
def send_sms_safe (env : Env) (to_number body : String) : Bool × String :=
  if env.twilio_account_sid = "" ∨ env.twilio_auth_token = "" ∨
      env.twilio_phone_number = "" then
    (false, "Missing env vars: TWILIO_ACCOUNT_SID / TWILIO_AUTH_TOKEN / TWILIO_PHONE_NUMBER")
  else if to_number = "" then
    (false, "Missing destination number")
  else
    match env.provider with
    | .success => (true, "Sent")
    | .twilioError e => (false, "TwilioRestException: " ++ e)
    | .otherError e => (false, "Exception: " ++ e)

/-- `notify_office_safe`: sends the summary to the office manager number when
configured; never throws. -/
def notify_office_safe (env : Env) (message : String) : Bool × String :=
  if OFFICE_MANAGER_NUMBER env = "" then
    (false, "OFFICE_MANAGER_NUMBER not set")
  else
    send_sms_safe env (OFFICE_MANAGER_NUMBER env) message

/-- Digit-run parser for `int(d)`: digits with single underscores allowed
between digits (Python 3 integer-literal rule), accumulating a value. -/
def pyDigitsVal : List Char → Nat → Option Nat
  | [], acc => some acc
  | '_' :: c :: rest, acc =>
      if c.isDigit then pyDigitsVal rest (acc * 10 + (c.toNat - 48)) else none
  | ['_'], _ => none
  | c :: rest, acc =>
      if c.isDigit then pyDigitsVal rest (acc * 10 + (c.toNat - 48)) else none

/-- Unsigned part of `int(d)`: at least one digit, underscores only between
digits. -/
def pyNat : List Char → Option Nat
  | [] => none
  | c :: rest => if c.isDigit then pyDigitsVal rest (c.toNat - 48) else none

/-- `_digits_to_int`: Python `int(d)` returning `None` on `ValueError`
(modelled for ASCII input: optional surrounding whitespace, optional sign,
then a digit run). -/
def _digits_to_int (d : String) : Option Int :=
  match pyStripChars d.data with
  | '+' :: rest => (pyNat rest).map Int.ofNat
  | '-' :: rest => (pyNat rest).map (fun n => -(n : Int))
  | cs => (pyNat cs).map Int.ofNat

/-- `_yesno_from_digit`: 1 = yes, 2 = no, anything else invalid. -/
def _yesno_from_digit (d : String) : Option Bool :=
  if d = "1" then some true
  else if d = "2" then some false
  else none

/-- One TwiML verb.  Every `Gather` in the app nests exactly one `Say`, so the
gather carries its prompt text directly; `method="POST"` and
`voice="alice"` are constant throughout and omitted. -/
inductive Verb where
  | say (text : String)
  | gather (numDigits : Nat) (action : String) (timeout : Nat) (prompt : String)
  | redirect (url : String)
  | record (action : String) (maxLength : Nat)
  | hangup
deriving DecidableEq, Repr

/-- An observable side effect of a handler: an outbound SMS attempt to the
caller, a call of `notify_office_safe`, or a `print` line. -/
inductive Effect where
  | sms (dest : String) (body : String)
  | notify (body : String)
  | log (line : String)
deriving DecidableEq, Repr

/-- `_end_options`: universal end prompt + navigation, appended to the
response being built. -/
def _end_options (intro : String) : List Verb :=
  (if intro = "" then [] else [.say intro]) ++
  [.gather 1 "/twilio/end-nav" 7
      ("You may hang up now. Press 1 to return to the main menu. " ++
        "Press 2 to return to scheduling, billing or insurance, and general practice information."),
    .say "Goodbye.",
    .hangup]

/-- `POST /twilio/voice`: 911 disclaimer then the emergency/business gate. -/
def twilio_voice : List Verb :=
  [.say "If this is a life threatening emergency, please hang up and dial 9 1 1.",
    .gather 1 "/twilio/gate" 7
      ("Press 1 if you are experiencing a dental emergency. " ++
        "Press 2 if you are calling about scheduling, billing or insurance, or general practice information."),
    .say "Sorry, I didn't get that.",
    .redirect "/twilio/voice"]

/-- `POST /twilio/gate`. -/
def twilio_gate (store : Store) (digit call_sid from_number : String) :
    Store × List Verb :=
  let p := _get_state store call_sid
  let st := { p.2 with from_number := some from_number }
  let store := setState p.1 (normSid call_sid) st
  if digit = "1" then
    (setState store (normSid call_sid) { st with path := some "emergency" },
      [.redirect "/twilio/emergency/pain"])
  else if digit = "2" then
    (setState store (normSid call_sid) { st with path := some "business" },
      [.redirect "/twilio/business/menu"])
  else
    (store, [.say "Sorry, that wasn't a valid selection.", .redirect "/twilio/voice"])

/-- `POST /twilio/emergency/pain`: prompt for the 1–9 pain level. -/
def emergency_pain (store : Store) (call_sid from_number : String) :
    Store × List Verb :=
  let p := _get_state store call_sid
  let st := { p.2 with from_number := some from_number, path := some "emergency" }
  let store := setState p.1 (normSid call_sid) st
  (store,
    [.gather 1 "/twilio/emergency/pain-save" 7
        ("Please enter your current pain level. Press a number from 1 to 9. " ++
          "Press 1 for the lowest pain. Press 9 for the highest pain."),
      .say "Sorry, I didn't get that.",
      .redirect "/twilio/emergency/pain"])

/-- `POST /twilio/emergency/pain-save`. -/
def emergency_pain_save (store : Store) (digit call_sid from_number : String) :
    Store × List Verb :=
  let p := _get_state store call_sid
  let st := { p.2 with from_number := some from_number }
  let store := setState p.1 (normSid call_sid) st
  match _digits_to_int digit with
  | none =>
      (store, [.say "Invalid entry. Please press a number from 1 to 9.",
        .redirect "/twilio/emergency/pain"])
  | some pain =>
      if pain < 1 ∨ 9 < pain then
        (store, [.say "Invalid entry. Please press a number from 1 to 9.",
          .redirect "/twilio/emergency/pain"])
      else
        (setState store (normSid call_sid) { st with pain_level := some pain },
          [.redirect "/twilio/emergency/symptoms"])

/-- `POST /twilio/emergency/symptoms`: yes/no prompt (no store access). -/
def emergency_symptoms : List Verb :=
  [.gather 1 "/twilio/emergency/symptoms-save" 7
      ("Press 1 if you are experiencing swelling, bleeding, or trauma to the dental region. " ++
        "Press 2 if you are not."),
    .say "Sorry, I didn't get that.",
    .redirect "/twilio/emergency/symptoms"]

/-- `POST /twilio/emergency/symptoms-save`. -/
def emergency_symptoms_save (store : Store) (digit call_sid from_number : String) :
    Store × List Verb :=
  let p := _get_state store call_sid
  let st := { p.2 with from_number := some from_number }
  let store := setState p.1 (normSid call_sid) st
  match _yesno_from_digit digit with
  | none =>
      (store, [.say "Invalid entry. Press 1 for yes. Press 2 for no.",
        .redirect "/twilio/emergency/symptoms"])
  | some yn =>
      (setState store (normSid call_sid) { st with symptoms_flag := some yn },
        [.redirect "/twilio/emergency/route"])

/-- `POST /twilio/emergency/route`: notify vs voicemail choice (no store
access). -/
def emergency_route : List Verb :=
  [.gather 1 "/twilio/emergency/route-handle" 7
      ("Press 1 to send your answers to the first available team member. " ++
        "Press 2 to record a voicemail to further explain your symptoms."),
    .say "Sorry, I didn't get that.",
    .redirect "/twilio/emergency/route"]

/-- Python's rendering of the stored pain level in an f-string
(`None` when the key was never set). -/
def pyShowOptInt : Option Int → String
  | none => "None"
  | some n => toString n

/-- `"Yes" if symptoms_flag is True else "No" if symptoms_flag is False else "Unknown"`. -/
def symptomsText : Option Bool → String
  | some true => "Yes"
  | some false => "No"
  | none => "Unknown"

/-- The emergency intake message composed by `emergency_route_handle` for
digit `"1"`. -/
def emergencyIntakeMsg (from_number : String) (pain : Option Int)
    (symptoms_flag : Option Bool) : String :=
  PRACTICE_NAME ++ " — After-hours EMERGENCY intake\n" ++
  "Caller: " ++ from_number ++ "\n" ++
  "Pain (1-9): " ++ pyShowOptInt pain ++ "\n" ++
  "Swelling/Bleeding/Trauma: " ++ symptomsText symptoms_flag ++ "\n" ++
  "Action: Please call back ASAP."

/-- Rendering of `print(label, "OK" if ok else "FAILED", "|", err)`. -/
def logLine (label : String) (ok : Bool) (err : String) : String :=
  label ++ " " ++ (if ok then "OK" else "FAILED") ++ " | " ++ err

/-- `POST /twilio/emergency/route-handle`. -/
def emergency_route_handle (env : Env) (store : Store)
    (digit call_sid from_number : String) :
    Store × List Verb × List Effect :=
  let p := _get_state store call_sid
  let st := { p.2 with from_number := some from_number, path := some "emergency" }
  let store := setState p.1 (normSid call_sid) st
  let pain := st.pain_level
  let symptoms_flag := st.symptoms_flag
  if digit = "1" then
    let msg := emergencyIntakeMsg from_number pain symptoms_flag
    let r := notify_office_safe env msg
    (store,
      _end_options "Your emergency intake information has been sent to the first available team member.",
      [Effect.notify msg, Effect.log (logLine "Emergency notify:" r.1 r.2)])
  else if digit = "2" then
    (store,
      [.say ("Please leave a voicemail after the tone. " ++
          "Please include your name and your callback number. " ++
          "Please do not include sensitive medical details. " ++
          "When you are finished, you may hang up."),
        .record "/twilio/recording-complete?intent=emergency" MAX_VOICEMAIL_SECONDS],
      [])
  else
    (store,
      [.say "Sorry, that wasn't a valid selection.", .redirect "/twilio/emergency/route"],
      [])

/-- `POST /twilio/business/menu` (no store access). -/
def business_menu : List Verb :=
  [.gather 1 "/twilio/business/menu-handle" 7
      ("Press 1 for appointments. Press 2 for billing or insurance. " ++
        "Press 3 for general practice information."),
    .say "Sorry, I didn't get that.",
    .redirect "/twilio/business/menu"]

/-- `POST /twilio/business/menu-handle`. -/
def business_menu_handle (store : Store) (digit call_sid from_number : String) :
    Store × List Verb :=
  let p := _get_state store call_sid
  let st := { p.2 with from_number := some from_number, path := some "business" }
  let store := setState p.1 (normSid call_sid) st
  if digit = "1" then
    (store, [.redirect "/twilio/business/appointments"])
  else if digit = "2" then
    (store, [.redirect "/twilio/business/billing-voicemail"])
  else if digit = "3" then
    (store, [.redirect "/twilio/business/general-info"])
  else
    (store, [.say "Sorry, that wasn't a valid selection.", .redirect "/twilio/business/menu"])

/-- `POST /twilio/business/appointments` (no store access). -/
def business_appointments : List Verb :=
  [.gather 1 "/twilio/business/appointments-handle" 7
      ("Press 1 to request a callback at the earliest operating hours. " ++
        "Press 2 to receive a scheduling link by text message. " ++
        "Press 3 to leave a voicemail about scheduling."),
    .say "Sorry, I didn't get that.",
    .redirect "/twilio/business/appointments"]

/-- `POST /twilio/business/appointments-handle`. -/
def business_appointments_handle (env : Env) (store : Store)
    (digit call_sid from_number : String) :
    Store × List Verb × List Effect :=
  let p := _get_state store call_sid
  let st := { p.2 with from_number := some from_number, intent := some "appointment" }
  let store := setState p.1 (normSid call_sid) st
  if digit = "1" then
    let msg := PRACTICE_NAME ++ " — After-hours APPOINTMENT callback request\n" ++
      "Caller: " ++ from_number ++ "\n" ++
      "Action: Please contact at earliest operating hours."
    let r := notify_office_safe env msg
    (store,
      _end_options "Your callback request has been sent. We will contact you at the earliest operating hours.",
      [Effect.notify msg, Effect.log (logLine "Appt callback notify:" r.1 r.2)])
  else if digit = "2" then
    let smsBody := "Book an appointment with " ++ PRACTICE_NAME ++ ": " ++ SCHEDULING_LINK
    let r := send_sms_safe env from_number smsBody
    let msg := PRACTICE_NAME ++ " — After-hours APPOINTMENT link sent\n" ++
      "Caller: " ++ from_number ++ "\n" ++
      "Action: Scheduling link was sent."
    let r2 := notify_office_safe env msg
    (store,
      [Verb.say "A scheduling link will be sent by text message now."] ++
        (if r.1 then
          _end_options "Text sent."
        else
          _end_options "We could not send a text right now. Please call back during business hours."),
      [Effect.sms from_number smsBody,
        Effect.log (logLine "Scheduling link SMS to caller:" r.1 r.2),
        Effect.notify msg,
        Effect.log (logLine "Appt link notify office:" r2.1 r2.2)])
  else if digit = "3" then
    (store,
      [.say ("Please leave a voicemail about scheduling. " ++
          "Include your name and your callback number. " ++
          "Please do not include sensitive medical details. " ++
          "When you are finished, you may hang up."),
        .record "/twilio/recording-complete?intent=appointment" MAX_VOICEMAIL_SECONDS],
      [])
  else
    (store,
      [.say "Sorry, that wasn't a valid selection.", .redirect "/twilio/business/appointments"],
      [])

/-- `POST /twilio/business/billing-voicemail` (no store access). -/
def business_billing_voicemail : List Verb :=
  [.say ("Please leave a voicemail about billing or insurance. " ++
      "Include your name and your callback number. " ++
      "Please do not include sensitive medical details. " ++
      "When you are finished, you may hang up."),
    .record "/twilio/recording-complete?intent=billing" MAX_VOICEMAIL_SECONDS]

/-- `POST /twilio/business/general-info` (no store access). -/
def business_general_info : List Verb :=
  [.say OFFICE_HOURS_TEXT,
    .gather 1 "/twilio/business/general-handle" 7
      ("Press 1 to receive directions by text message. " ++
        "Press 2 to leave a voicemail with a general question."),
    .say "Sorry, I didn't get that.",
    .redirect "/twilio/business/general-info"]

/-- `POST /twilio/business/general-handle`. -/
def business_general_handle (env : Env) (store : Store)
    (digit call_sid from_number : String) :
    Store × List Verb × List Effect :=
  let p := _get_state store call_sid
  let st := { p.2 with from_number := some from_number, intent := some "general" }
  let store := setState p.1 (normSid call_sid) st
  if digit = "1" then
    let smsBody := "Directions to " ++ PRACTICE_NAME ++ ": " ++ DIRECTIONS_LINK
    let r := send_sms_safe env from_number smsBody
    let msg := PRACTICE_NAME ++ " — After-hours DIRECTIONS requested\n" ++
      "Caller: " ++ from_number ++ "\n" ++
      "Action: Directions link sent."
    let r2 := notify_office_safe env msg
    (store,
      [Verb.say "Directions will be sent by text message now."] ++
        (if r.1 then
          _end_options "Text sent."
        else
          _end_options "We could not send directions by text right now."),
      [Effect.sms from_number smsBody,
        Effect.log (logLine "Directions SMS to caller:" r.1 r.2),
        Effect.notify msg,
        Effect.log (logLine "Directions notify office:" r2.1 r2.2)])
  else if digit = "2" then
    (store,
      [.say ("Please leave a voicemail with your general question. " ++
          "Include your name and your callback number. " ++
          "Please do not include sensitive medical details. " ++
          "When you are finished, you may hang up."),
        .record "/twilio/recording-complete?intent=general" MAX_VOICEMAIL_SECONDS],
      [])
  else
    (store,
      [.say "Sorry, that wasn't a valid selection.", .redirect "/twilio/business/general-info"],
      [])

/-- `POST /twilio/end-nav` (no store access). -/
def end_nav (digit : String) : List Verb :=
  if digit = "1" then [.redirect "/twilio/voice"]
  else if digit = "2" then [.redirect "/twilio/business/menu"]
  else [.say "Goodbye.", .hangup]

/-- `rec_link`: `f"{recording_url}.mp3" if recording_url else "(no recording url)"`
(Python falsiness: `None` and `""` both take the fallback). -/
def recLink : Option String → String
  | some u => if u = "" then "(no recording url)" else u ++ ".mp3"
  | none => "(no recording url)"

/-- The `intent` read in `recording_complete`:
`request.query_params.get("intent", "unknown").strip().lower()`. -/
def recIntent (intentQ : Option String) : String :=
  pyLower (pyStrip (intentQ.getD "unknown"))

/-- The `lines` list built by `recording_complete` (before `"\n".join`):
header, caller, voicemail link, with the two triage lines inserted at
positions 2 and 3 when the intent or the stored path is `"emergency"`.
`st` is the session record after this handler's own field writes. -/
def recordingLines (intent : String) (st : CallRecord) (from_number : String)
    (recording_url : Option String) : List String :=
  let header := PRACTICE_NAME ++ " — After-hours VOICEMAIL" ++
    (if intent ≠ "unknown" then " (" ++ pyUpper intent ++ ")" else "")
  let base := [header, "Caller: " ++ from_number, "Voicemail: " ++ recLink recording_url]
  if intent = "emergency" ∨ st.path = some "emergency" then
    (base.take 2) ++
      ["Pain (1-9): " ++ pyShowOptInt st.pain_level,
        "Swelling/Bleeding/Trauma: " ++ symptomsText st.symptoms_flag] ++
      (base.drop 2)
  else
    base

/-- `POST /twilio/recording-complete`. -/
def recording_complete (env : Env) (store : Store)
    (recording_url : Option String) (from_number call_sid : String)
    (intentQ : Option String) :
    Store × List Verb × List Effect :=
  let intent := recIntent intentQ
  let p := _get_state store call_sid
  let st := { p.2 with from_number := some from_number,
                       recording_url := some recording_url, intent := some intent }
  let store := setState p.1 (normSid call_sid) st
  let msg := String.intercalate "\n" (recordingLines intent st from_number recording_url)
  let r := notify_office_safe env msg
  (store,
    _end_options "Your message has been recorded.",
    [Effect.notify msg, Effect.log (logLine "Voicemail notify office:" r.1 r.2)])

/-! ### Store lemmas -/

lemma lookup_setState_self (s : Store) (k : String) (r : CallRecord) :
    lookupState (setState s k r) k = some r := by
  induction s with
  | nil => simp [setState, lookupState]
  | cons hd tl ih =>
      obtain ⟨k', r'⟩ := hd
      by_cases h : k' = k
      · subst h; simp [setState, lookupState]
      · simp [setState, lookupState, h, ih]

lemma lookup_setState_ne (s : Store) (k k' : String) (r : CallRecord)
    (h : k' ≠ k) : lookupState (setState s k r) k' = lookupState s k' := by
  induction s with
  | nil =>
      simp only [setState, lookupState]
      rw [if_neg (fun hh => h hh.symm)]
  | cons hd tl ih =>
      obtain ⟨k0, r0⟩ := hd
      by_cases h0 : k0 = k
      · subst h0
        simp only [setState, if_pos rfl, lookupState]
        rw [if_neg (fun hh => h hh.symm), if_neg (fun hh => h hh.symm)]
      · by_cases h1 : k0 = k'
        · subst h1; simp [setState, lookupState, h0]
        · simp [setState, lookupState, h0, h1, ih]

lemma setState_setState (s : Store) (k : String) (a b : CallRecord) :
    setState (setState s k a) k b = setState s k b := by
  induction s with
  | nil => simp [setState]
  | cons hd tl ih =>
      obtain ⟨k0, r0⟩ := hd
      by_cases h : k0 = k
      · subst h; simp [setState]
      · simp [setState, h, ih]

lemma _get_state_snd (store : Store) (call_sid : String) :
    (_get_state store call_sid).2 =
      (lookupState store (normSid call_sid)).getD {} := by
  unfold _get_state
  cases h : lookupState store (normSid call_sid) <;> simp [h]

lemma setState_get_state_fst (store : Store) (call_sid : String) (r : CallRecord) :
    setState (_get_state store call_sid).1 (normSid call_sid) r =
      setState store (normSid call_sid) r := by
  unfold _get_state
  cases h : lookupState store (normSid call_sid) with
  | none => simp [h, setState_setState]
  | some r' => simp [h]

/-! ### String distinctness helpers -/

lemma ne_of_head_append (a b x y : String) (c d : Char) (l1 l2 : List Char)
    (ha : a.data = c :: l1) (hb : b.data = d :: l2) (hcd : c ≠ d) :
    a ++ x ≠ b ++ y := by
  intro h
  have h' := congrArg String.data h
  rw [String.data_append, String.data_append, ha, hb] at h'
  simp only [List.cons_append, List.cons.injEq] at h'
  exact hcd h'.1

lemma string_append_left_cancel {p x y : String} (h : p ++ x = p ++ y) : x = y := by
  have h' := congrArg String.data h
  rw [String.data_append, String.data_append] at h'
  exact String.ext (List.append_cancel_left h')

lemma append_ne_empty_left (a b : String) (h : a ≠ "") : a ++ b ≠ "" := by
  intro hab
  apply h
  have h' := congrArg String.data hab
  rw [String.data_append] at h'
  rcases List.append_eq_nil.mp h' with ⟨ha, _⟩
  exact String.ext (by rw [ha])

lemma mp3_ne_norec (x : String) : x ++ ".mp3" ≠ "(no recording url)" := by
  intro h
  have h' := congrArg String.data h
  rw [String.data_append] at h'
  have e1 : (".mp3" : String).data = ['.', 'm', 'p', '3'] := rfl
  have e2 : ("(no recording url)" : String).data =
      ['(', 'n', 'o', ' ', 'r', 'e', 'c', 'o', 'r', 'd', 'i', 'n', 'g', ' ', 'u', 'r', 'l', ')'] := rfl
  rw [e1, e2] at h'
  have hlen := congrArg List.length h'
  rw [List.length_append] at hlen
  simp only [List.length_cons, List.length_nil] at hlen
  have hd : x.data.length = 14 := by omega
  have h2 := congrArg (List.drop x.data.length) h'
  rw [List.drop_left, hd] at h2
  exact absurd h2 (by decide)

/-! ### Field-presence order on session records -/

/-- `a ≤ b` field-presence-wise: every field whose key is present in `a` is
still present in `b` (possibly overwritten, never removed). -/
def fieldsLE (a b : CallRecord) : Prop :=
  (a.from_number.isSome → b.from_number.isSome) ∧
  (a.path.isSome → b.path.isSome) ∧
  (a.intent.isSome → b.intent.isSome) ∧
  (a.pain_level.isSome → b.pain_level.isSome) ∧
  (a.symptoms_flag.isSome → b.symptoms_flag.isSome) ∧
  (a.recording_url.isSome → b.recording_url.isSome)

instance (a b : CallRecord) : Decidable (fieldsLE a b) := by
  unfold fieldsLE; infer_instance

lemma fieldsLE_refl (a : CallRecord) : fieldsLE a a := by
  simp [fieldsLE]

/-- Store evolution order: no session disappears and no field of a surviving
session is removed. -/
def storeLE (s t : Store) : Prop :=
  ∀ k r, lookupState s k = some r →
    ∃ r', lookupState t k = some r' ∧ fieldsLE r r'

lemma storeLE_setState (store : Store) (key : String) (newR : CallRecord)
    (h : fieldsLE ((lookupState store key).getD {}) newR) :
    storeLE store (setState store key newR) := by
  intro k r hr
  by_cases hk : k = key
  · subst hk
    refine ⟨newR, lookup_setState_self _ _ _, ?_⟩
    rw [hr] at h
    exact h
  · exact ⟨r, by rw [lookup_setState_ne _ _ _ _ hk]; exact hr, fieldsLE_refl r⟩

/-! ### Helper lemmas for the send contract -/

lemma send_sms_safe_fst (env : Env) (to_number body : String) :
    (send_sms_safe env to_number body).1 = true ↔
      (env.twilio_account_sid ≠ "" ∧ env.twilio_auth_token ≠ "" ∧
        env.twilio_phone_number ≠ "" ∧ to_number ≠ "" ∧
        env.provider = .success) := by
  unfold send_sms_safe
  split_ifs with h1 h2
  · simp only [Bool.false_eq_true, false_iff]
    tauto
  · simp only [Bool.false_eq_true, false_iff]
    tauto
  · push_neg at h1
    cases hp : env.provider <;> simp_all

lemma send_sms_safe_snd_ne (env : Env) (to_number body : String) :
    (send_sms_safe env to_number body).2 ≠ "" := by
  unfold send_sms_safe
  split_ifs with h1 h2
  · decide
  · decide
  · cases env.provider
    · decide
    · exact append_ne_empty_left _ _ (by decide)
    · exact append_ne_empty_left _ _ (by decide)

/-- C1: `send_sms_safe` is a total function into `Bool × String` (the
try/except wrapping means no failure escapes): the flag is `true` exactly
when all three credentials are set, the destination is non-empty and the
provider dispatch succeeds — so every failure condition (missing
credentials, empty destination, provider exception) yields a `false` flag —
and the diagnostic string is never empty.  The same holds for
`notify_office_safe` with the additional unset-office-number failure. -/
theorem c1_send_sms_safe_never_raises (env : Env) (to_number body : String) :
    ((send_sms_safe env to_number body).1 = true ↔
      (env.twilio_account_sid ≠ "" ∧ env.twilio_auth_token ≠ "" ∧
        env.twilio_phone_number ≠ "" ∧ to_number ≠ "" ∧
        env.provider = .success)) ∧
    (send_sms_safe env to_number body).2 ≠ "" ∧
    ((notify_office_safe env body).1 = true ↔
      (OFFICE_MANAGER_NUMBER env ≠ "" ∧
        (send_sms_safe env (OFFICE_MANAGER_NUMBER env) body).1 = true)) ∧
    (notify_office_safe env body).2 ≠ "" := by
  refine ⟨send_sms_safe_fst env to_number body, send_sms_safe_snd_ne env to_number body, ?_, ?_⟩
  · unfold notify_office_safe
    split_ifs with h
    · simp [h]
    · simp [h]
  · unfold notify_office_safe
    split_ifs with h
    · decide
    · exact send_sms_safe_snd_ne env _ body

/-- C6: a call identifier not present in the store gets a fresh empty record
on first lookup (no error; the store gains exactly that entry), and every
subsequent lookup of the same identifier returns the record currently stored
under it, as fields are filled in. -/
theorem c6_fresh_session_lookup (store : Store) (call_sid : String)
    (h : lookupState store (normSid call_sid) = none) :
    _get_state store call_sid =
      (setState store (normSid call_sid) ({} : CallRecord), ({} : CallRecord)) ∧
    ∀ r : CallRecord,
      _get_state (setState store (normSid call_sid) r) call_sid =
        (setState store (normSid call_sid) r, r) := by
  constructor
  · simp [_get_state, h]
  · intro r
    simp [_get_state, lookup_setState_self]

/-- Witness for C6 at the fresh identifier `"CA9"` over the empty store. -/
theorem c6_fresh_session_lookup_witness :
    _get_state [] "CA9" =
      (setState [] "CA9" ({} : CallRecord), ({} : CallRecord)) ∧
    _get_state (setState [] "CA9" { pain_level := some 5 }) "CA9" =
      (setState [] "CA9" { pain_level := some 5 },
        ({ pain_level := some 5 } : CallRecord)) := by
  have h := c6_fresh_session_lookup [] "CA9" rfl
  exact ⟨h.1, h.2 _⟩

/-- C10: a missing/empty CallSid is replaced by the fixed key
`"UNKNOWN_CALLSID"`, so all such requests — even from distinct phone
calls — read and mutate one shared session record: two gate requests with
empty CallSid but different caller numbers end up in the single
`"UNKNOWN_CALLSID"` record, the second overwriting the first. -/
theorem c10_empty_callsid_shared_record :
    (∀ store : Store, _get_state store "" = _get_state store "UNKNOWN_CALLSID") ∧
    normSid "" = "UNKNOWN_CALLSID" ∧
    (twilio_gate (twilio_gate [] "1" "" "+15550000001").1 "2" "" "+15550000002").1 =
      [("UNKNOWN_CALLSID",
        { from_number := some "+15550000002", path := some "business" })] := by
  refine ⟨fun store => rfl, rfl, by decide⟩

/-- C8: for the emergency route step with digit "1", the spoken response is
the same list of verbs whatever the environment (office number set or not,
provider succeeding or raising) — the caller is always told the intake
information has been sent. -/
theorem c8_notify_outcome_invisible (env1 env2 : Env) (store : Store)
    (call_sid from_number : String) :
    (emergency_route_handle env1 store "1" call_sid from_number).2.1 =
      (emergency_route_handle env2 store "1" call_sid from_number).2.1 ∧
    Verb.say "Your emergency intake information has been sent to the first available team member." ∈
      (emergency_route_handle env1 store "1" call_sid from_number).2.1 := by
  refine ⟨rfl, ?_⟩
  show Verb.say "Your emergency intake information has been sent to the first available team member." ∈
    _end_options "Your emergency intake information has been sent to the first available team member."
  decide

/-- The rejection test of `emergency_pain_save`:
`pain is None or pain < 1 or pain > 9`. -/
def painInvalid : Option Int → Bool
  | none => true
  | some n => decide (n < 1 ∨ 9 < n)

/-- C4 (amended): at every digit-collection handler, a digit outside the
accepted set makes the response speak the apology/invalid-entry line and
redirect back to the same step's prompt — never silently advance — with two
exceptions: the entry gate's invalid case redirects back to the entry
disclaimer `/twilio/voice`, and the end-navigation step's invalid case says
goodbye and hangs up. -/
theorem c4_invalid_digit_reprompts_same_step (env : Env) (store : Store)
    (digit call_sid from_number : String) :
    (digit ≠ "1" → digit ≠ "2" →
      (twilio_gate store digit call_sid from_number).2 =
        [Verb.say "Sorry, that wasn't a valid selection.",
          Verb.redirect "/twilio/voice"]) ∧
    (painInvalid (_digits_to_int digit) = true →
      (emergency_pain_save store digit call_sid from_number).2 =
        [Verb.say "Invalid entry. Please press a number from 1 to 9.",
          Verb.redirect "/twilio/emergency/pain"]) ∧
    (digit ≠ "1" → digit ≠ "2" →
      (emergency_symptoms_save store digit call_sid from_number).2 =
        [Verb.say "Invalid entry. Press 1 for yes. Press 2 for no.",
          Verb.redirect "/twilio/emergency/symptoms"]) ∧
    (digit ≠ "1" → digit ≠ "2" →
      (emergency_route_handle env store digit call_sid from_number).2.1 =
        [Verb.say "Sorry, that wasn't a valid selection.",
          Verb.redirect "/twilio/emergency/route"]) ∧
    (digit ≠ "1" → digit ≠ "2" → digit ≠ "3" →
      (business_menu_handle store digit call_sid from_number).2 =
        [Verb.say "Sorry, that wasn't a valid selection.",
          Verb.redirect "/twilio/business/menu"]) ∧
    (digit ≠ "1" → digit ≠ "2" → digit ≠ "3" →
      (business_appointments_handle env store digit call_sid from_number).2.1 =
        [Verb.say "Sorry, that wasn't a valid selection.",
          Verb.redirect "/twilio/business/appointments"]) ∧
    (digit ≠ "1" → digit ≠ "2" →
      (business_general_handle env store digit call_sid from_number).2.1 =
        [Verb.say "Sorry, that wasn't a valid selection.",
          Verb.redirect "/twilio/business/general-info"]) ∧
    (digit ≠ "1" → digit ≠ "2" →
      end_nav digit = [Verb.say "Goodbye.", Verb.hangup]) := by
  refine ⟨?_, ?_, ?_, ?_, ?_, ?_, ?_, ?_⟩
  · intro h1 h2
    simp [twilio_gate, h1, h2]
  · intro hp
    cases hd : _digits_to_int digit with
    | none => simp [emergency_pain_save, hd]
    | some n =>
        rw [hd] at hp
        have : n < 1 ∨ 9 < n := by simpa [painInvalid] using hp
        simp [emergency_pain_save, hd, this]
  · intro h1 h2
    simp [emergency_symptoms_save, _yesno_from_digit, h1, h2]
  · intro h1 h2
    simp [emergency_route_handle, h1, h2]
  · intro h1 h2 h3
    simp [business_menu_handle, h1, h2, h3]
  · intro h1 h2 h3
    simp [business_appointments_handle, h1, h2, h3]
  · intro h1 h2
    simp [business_general_handle, h1, h2]
  · intro h1 h2
    simp [end_nav, h1, h2]

/-- Witness for C4 at digit "0" (outside every accepted set). -/
theorem c4_invalid_digit_reprompts_same_step_witness :
    (twilio_gate [] "0" "CA4" "+15550000004").2 =
      [Verb.say "Sorry, that wasn't a valid selection.",
        Verb.redirect "/twilio/voice"] ∧
    (emergency_pain_save [] "0" "CA4" "+15550000004").2 =
      [Verb.say "Invalid entry. Please press a number from 1 to 9.",
        Verb.redirect "/twilio/emergency/pain"] ∧
    (emergency_symptoms_save [] "0" "CA4" "+15550000004").2 =
      [Verb.say "Invalid entry. Press 1 for yes. Press 2 for no.",
        Verb.redirect "/twilio/emergency/symptoms"] ∧
    (emergency_route_handle {} [] "0" "CA4" "+15550000004").2.1 =
      [Verb.say "Sorry, that wasn't a valid selection.",
        Verb.redirect "/twilio/emergency/route"] ∧
    (business_menu_handle [] "0" "CA4" "+15550000004").2 =
      [Verb.say "Sorry, that wasn't a valid selection.",
        Verb.redirect "/twilio/business/menu"] ∧
    (business_appointments_handle {} [] "0" "CA4" "+15550000004").2.1 =
      [Verb.say "Sorry, that wasn't a valid selection.",
        Verb.redirect "/twilio/business/appointments"] ∧
    (business_general_handle {} [] "0" "CA4" "+15550000004").2.1 =
      [Verb.say "Sorry, that wasn't a valid selection.",
        Verb.redirect "/twilio/business/general-info"] ∧
    end_nav "0" = [Verb.say "Goodbye.", Verb.hangup] := by
  have h := c4_invalid_digit_reprompts_same_step {} [] "0" "CA4" "+15550000004"
  exact ⟨h.1 (by decide) (by decide),
    h.2.1 (by decide),
    h.2.2.1 (by decide) (by decide),
    h.2.2.2.1 (by decide) (by decide),
    h.2.2.2.2.1 (by decide) (by decide) (by decide),
    h.2.2.2.2.2.1 (by decide) (by decide) (by decide),
    h.2.2.2.2.2.2.1 (by decide) (by decide),
    h.2.2.2.2.2.2.2 (by decide) (by decide)⟩

/-- C4 counterexample to the claim as stated: the end-navigation step is a
digit-collection step (its gather accepts 1 and 2), yet on the out-of-set
digit "0" it neither speaks an apology line nor re-prompts — it says goodbye
and hangs up, an exception the claim does not allow. -/
theorem c4_counterexample_end_nav :
    end_nav "0" = [Verb.say "Goodbye.", Verb.hangup] ∧
    Verb.say "Sorry, that wasn't a valid selection." ∉ end_nav "0" ∧
    Verb.redirect "/twilio/voice" ∉ end_nav "0" ∧
    Verb.redirect "/twilio/business/menu" ∉ end_nav "0" := by
  decide

/-- C5: end-to-end emergency triage scenario.  Gate digit "1" redirects to
the pain prompt; pain-save digit "5" stores the level and redirects to the
symptoms prompt; symptoms-save digit "1" redirects to the route prompt;
route-handle digit "1" calls the office notifier with a message carrying
`Pain (1-9): 5` and `Swelling/Bleeding/Trauma: Yes`, and the returned markup
is the post-action navigation block (intro, end-nav gather, with the goodbye
and hangup only as the gather's no-input fallback) rather than a bare
hangup. -/
theorem c5_emergency_scenario :
    (twilio_gate [] "1" "CA5" "+15551234567").2 =
      [Verb.redirect "/twilio/emergency/pain"] ∧
    (emergency_pain_save (twilio_gate [] "1" "CA5" "+15551234567").1
        "5" "CA5" "+15551234567").2 =
      [Verb.redirect "/twilio/emergency/symptoms"] ∧
    (emergency_symptoms_save
        (emergency_pain_save (twilio_gate [] "1" "CA5" "+15551234567").1
          "5" "CA5" "+15551234567").1 "1" "CA5" "+15551234567").2 =
      [Verb.redirect "/twilio/emergency/route"] ∧
    (emergency_route_handle
        { twilio_account_sid := "ACxxxx", twilio_auth_token := "token",
          twilio_phone_number := "+15550009999",
          office_manager_number := "+15557778888", provider := .success }
        (emergency_symptoms_save
          (emergency_pain_save (twilio_gate [] "1" "CA5" "+15551234567").1
            "5" "CA5" "+15551234567").1 "1" "CA5" "+15551234567").1
        "1" "CA5" "+15551234567").2.2 =
      [Effect.notify ("Luke's Office — After-hours EMERGENCY intake\nCaller: +15551234567\nPain (1-9): 5\nSwelling/Bleeding/Trauma: Yes\nAction: Please call back ASAP."),
        Effect.log "Emergency notify: OK | Sent"] ∧
    (emergency_route_handle
        { twilio_account_sid := "ACxxxx", twilio_auth_token := "token",
          twilio_phone_number := "+15550009999",
          office_manager_number := "+15557778888", provider := .success }
        (emergency_symptoms_save
          (emergency_pain_save (twilio_gate [] "1" "CA5" "+15551234567").1
            "5" "CA5" "+15551234567").1 "1" "CA5" "+15551234567").1
        "1" "CA5" "+15551234567").2.1 =
      [Verb.say "Your emergency intake information has been sent to the first available team member.",
        Verb.gather 1 "/twilio/end-nav" 7
          ("You may hang up now. Press 1 to return to the main menu. " ++
            "Press 2 to return to scheduling, billing or insurance, and general practice information."),
        Verb.say "Goodbye.",
        Verb.hangup] := by
  decide

/-- C3: the pain-save step stores the parsed level and advances to the
symptoms step exactly when the digit string parses (Python `int`) to an
integer in [1,9]; any other input speaks the invalid-entry line, redirects
back to the pain prompt, and leaves the stored pain level of that session
unchanged. -/
theorem c3_pain_save_accepts_iff (store : Store)
    (digit call_sid from_number : String) :
    (∀ n : Int, _digits_to_int digit = some n → 1 ≤ n → n ≤ 9 →
      lookupState (emergency_pain_save store digit call_sid from_number).1
          (normSid call_sid) =
        some { (lookupState store (normSid call_sid)).getD {} with
                from_number := some from_number, pain_level := some n } ∧
      (emergency_pain_save store digit call_sid from_number).2 =
        [Verb.redirect "/twilio/emergency/symptoms"]) ∧
    (painInvalid (_digits_to_int digit) = true →
      (emergency_pain_save store digit call_sid from_number).2 =
        [Verb.say "Invalid entry. Please press a number from 1 to 9.",
          Verb.redirect "/twilio/emergency/pain"] ∧
      ((lookupState (emergency_pain_save store digit call_sid from_number).1
          (normSid call_sid)).getD {}).pain_level =
        ((lookupState store (normSid call_sid)).getD {}).pain_level) := by
  constructor
  · intro n hn h1 h9
    have hr : ¬(n < 1 ∨ 9 < n) := by omega
    constructor
    · simp [emergency_pain_save, hn, hr, setState_get_state_fst,
        setState_setState, lookup_setState_self, _get_state_snd]
    · simp [emergency_pain_save, hn, hr]
  · intro hp
    cases hd : _digits_to_int digit with
    | none =>
        constructor
        · simp [emergency_pain_save, hd]
        · simp [emergency_pain_save, hd, setState_get_state_fst,
            lookup_setState_self, _get_state_snd]
    | some n =>
        rw [hd] at hp
        have hr : n < 1 ∨ 9 < n := by simpa [painInvalid] using hp
        constructor
        · simp [emergency_pain_save, hd, hr]
        · simp [emergency_pain_save, hd, hr, setState_get_state_fst,
            lookup_setState_self, _get_state_snd]

/-- Witness for C3: accepted digit "5" stores pain 5 and advances; rejected
digit "0" re-prompts the pain step and stores nothing. -/
theorem c3_pain_save_accepts_iff_witness :
    (lookupState (emergency_pain_save [] "5" "CA3" "+15553334444").1
        (normSid "CA3") =
      some { from_number := some "+15553334444", pain_level := some 5 } ∧
     (emergency_pain_save [] "5" "CA3" "+15553334444").2 =
      [Verb.redirect "/twilio/emergency/symptoms"]) ∧
    ((emergency_pain_save [] "0" "CA3" "+15553334444").2 =
      [Verb.say "Invalid entry. Please press a number from 1 to 9.",
        Verb.redirect "/twilio/emergency/pain"] ∧
     ((lookupState (emergency_pain_save [] "0" "CA3" "+15553334444").1
        (normSid "CA3")).getD {}).pain_level =
      ((lookupState ([] : Store) (normSid "CA3")).getD {}).pain_level) := by
  exact ⟨(c3_pain_save_accepts_iff [] "5" "CA3" "+15553334444").1 5
      (by decide) (by decide) (by decide),
    (c3_pain_save_accepts_iff [] "0" "CA3" "+15553334444").2 (by decide)⟩

/-! ### Per-handler store monotonicity -/

lemma storeLE_gate (store : Store) (digit call_sid from_number : String) :
    storeLE store (twilio_gate store digit call_sid from_number).1 := by
  simp only [twilio_gate]
  split_ifs <;>
    simp only [setState_get_state_fst, setState_setState] <;>
    apply storeLE_setState <;>
    simp [fieldsLE, _get_state_snd]

lemma storeLE_emergency_pain (store : Store) (call_sid from_number : String) :
    storeLE store (emergency_pain store call_sid from_number).1 := by
  simp only [emergency_pain]
  simp only [setState_get_state_fst, setState_setState]
  apply storeLE_setState
  simp [fieldsLE, _get_state_snd]

lemma storeLE_pain_save (store : Store) (digit call_sid from_number : String) :
    storeLE store (emergency_pain_save store digit call_sid from_number).1 := by
  simp only [emergency_pain_save]
  cases _digits_to_int digit with
  | none =>
      dsimp only
      simp only [setState_get_state_fst, setState_setState]
      apply storeLE_setState
      simp [fieldsLE, _get_state_snd]
  | some n =>
      dsimp only
      split_ifs <;>
        simp only [setState_get_state_fst, setState_setState] <;>
        apply storeLE_setState <;>
        simp [fieldsLE, _get_state_snd]

lemma storeLE_symptoms_save (store : Store) (digit call_sid from_number : String) :
    storeLE store (emergency_symptoms_save store digit call_sid from_number).1 := by
  simp only [emergency_symptoms_save]
  cases _yesno_from_digit digit <;>
    dsimp only <;>
    simp only [setState_get_state_fst, setState_setState] <;>
    apply storeLE_setState <;>
    simp [fieldsLE, _get_state_snd]

lemma storeLE_route_handle (env : Env) (store : Store)
    (digit call_sid from_number : String) :
    storeLE store (emergency_route_handle env store digit call_sid from_number).1 := by
  simp only [emergency_route_handle]
  split_ifs <;>
    simp only [setState_get_state_fst, setState_setState] <;>
    apply storeLE_setState <;>
    simp [fieldsLE, _get_state_snd]

lemma storeLE_menu_handle (store : Store) (digit call_sid from_number : String) :
    storeLE store (business_menu_handle store digit call_sid from_number).1 := by
  simp only [business_menu_handle]
  split_ifs <;>
    simp only [setState_get_state_fst, setState_setState] <;>
    apply storeLE_setState <;>
    simp [fieldsLE, _get_state_snd]

lemma storeLE_appointments_handle (env : Env) (store : Store)
    (digit call_sid from_number : String) :
    storeLE store (business_appointments_handle env store digit call_sid from_number).1 := by
  simp only [business_appointments_handle]
  split_ifs <;>
    simp only [setState_get_state_fst, setState_setState] <;>
    apply storeLE_setState <;>
    simp [fieldsLE, _get_state_snd]

lemma storeLE_general_handle (env : Env) (store : Store)
    (digit call_sid from_number : String) :
    storeLE store (business_general_handle env store digit call_sid from_number).1 := by
  simp only [business_general_handle]
  split_ifs <;>
    simp only [setState_get_state_fst, setState_setState] <;>
    apply storeLE_setState <;>
    simp [fieldsLE, _get_state_snd]

lemma storeLE_recording_complete (env : Env) (store : Store)
    (recording_url : Option String) (from_number call_sid : String)
    (intentQ : Option String) :
    storeLE store
      (recording_complete env store recording_url from_number call_sid intentQ).1 := by
  simp only [recording_complete]
  simp only [setState_get_state_fst, setState_setState]
  apply storeLE_setState
  simp [fieldsLE, _get_state_snd]

/-- C9: no handler ever removes a session from the store or removes a field
from a session record: after any of the store-touching webhook handlers
runs, every previously stored session is still stored, and every field that
was present (set) in it is still present — fields are only added or
overwritten, never cleared. -/
theorem c9_sessions_and_fields_append_only (env : Env) (store : Store)
    (digit call_sid from_number : String) (recording_url : Option String)
    (intentQ : Option String) :
    storeLE store (twilio_gate store digit call_sid from_number).1 ∧
    storeLE store (emergency_pain store call_sid from_number).1 ∧
    storeLE store (emergency_pain_save store digit call_sid from_number).1 ∧
    storeLE store (emergency_symptoms_save store digit call_sid from_number).1 ∧
    storeLE store (emergency_route_handle env store digit call_sid from_number).1 ∧
    storeLE store (business_menu_handle store digit call_sid from_number).1 ∧
    storeLE store (business_appointments_handle env store digit call_sid from_number).1 ∧
    storeLE store (business_general_handle env store digit call_sid from_number).1 ∧
    storeLE store
      (recording_complete env store recording_url from_number call_sid intentQ).1 :=
  ⟨storeLE_gate store digit call_sid from_number,
    storeLE_emergency_pain store call_sid from_number,
    storeLE_pain_save store digit call_sid from_number,
    storeLE_symptoms_save store digit call_sid from_number,
    storeLE_route_handle env store digit call_sid from_number,
    storeLE_menu_handle store digit call_sid from_number,
    storeLE_appointments_handle env store digit call_sid from_number,
    storeLE_general_handle env store digit call_sid from_number,
    storeLE_recording_complete env store recording_url from_number call_sid intentQ⟩

/-- Witness for C9: a populated emergency session survives a
`recording_complete` callback with all its set fields still present. -/
theorem c9_sessions_and_fields_append_only_witness :
    ∃ r' : CallRecord,
      lookupState
        (recording_complete {} [("CA9w",
          { from_number := some "+15551112222", path := some "emergency",
            pain_level := some 7, symptoms_flag := some true })]
          none "+15551112222" "CA9w" (some "emergency")).1 "CA9w" = some r' ∧
      fieldsLE { from_number := some "+15551112222", path := some "emergency",
                 pain_level := some 7, symptoms_flag := some true } r' := by
  exact (c9_sessions_and_fields_append_only {}
    [("CA9w",
      { from_number := some "+15551112222", path := some "emergency",
        pain_level := some 7, symptoms_flag := some true })]
    "1" "CA9w" "+15551112222" none (some "emergency")).2.2.2.2.2.2.2.2
    "CA9w" _ (by decide)

/-- C2: in the voicemail-complete notification, the `Pain (1-9):` and
`Swelling/Bleeding/Trauma:` lines are present exactly when the declared
intent (the query parameter after strip/lower, default "unknown") is
"emergency" or the session's stored path is "emergency"; in every other
case those two lines are absent.  The third conjunct ties the line list to
the message the handler actually hands to the office notifier. -/
theorem c2_triage_lines_iff_emergency (env : Env) (store : Store)
    (recording_url : Option String) (from_number call_sid : String)
    (intentQ : Option String) :
    (("Pain (1-9): " ++
        pyShowOptInt ((lookupState store (normSid call_sid)).getD {}).pain_level) ∈
      recordingLines (recIntent intentQ)
        { (lookupState store (normSid call_sid)).getD {} with
            from_number := some from_number,
            recording_url := some recording_url,
            intent := some (recIntent intentQ) } from_number recording_url ↔
      (recIntent intentQ = "emergency" ∨
        ((lookupState store (normSid call_sid)).getD {}).path = some "emergency")) ∧
    (("Swelling/Bleeding/Trauma: " ++
        symptomsText ((lookupState store (normSid call_sid)).getD {}).symptoms_flag) ∈
      recordingLines (recIntent intentQ)
        { (lookupState store (normSid call_sid)).getD {} with
            from_number := some from_number,
            recording_url := some recording_url,
            intent := some (recIntent intentQ) } from_number recording_url ↔
      (recIntent intentQ = "emergency" ∨
        ((lookupState store (normSid call_sid)).getD {}).path = some "emergency")) ∧
    (recording_complete env store recording_url from_number call_sid intentQ).2.2.head? =
      some (Effect.notify (String.intercalate "\n"
        (recordingLines (recIntent intentQ)
          { (lookupState store (normSid call_sid)).getD {} with
              from_number := some from_number,
              recording_url := some recording_url,
              intent := some (recIntent intentQ) } from_number recording_url))) := by
  refine ⟨?_, ?_, ?_⟩
  · generalize (lookupState store (normSid call_sid)).getD ({} : CallRecord) = old
    simp only [recordingLines]
    by_cases hc : recIntent intentQ = "emergency" ∨ old.path = some "emergency"
    · rw [if_pos hc]
      refine iff_of_true ?_ hc
      simp
    · rw [if_neg hc]
      refine iff_of_false ?_ hc
      rw [show PRACTICE_NAME ++ " — After-hours VOICEMAIL" =
        "Luke's Office — After-hours VOICEMAIL" from rfl]
      intro hmem
      simp only [List.mem_cons, List.not_mem_nil, or_false] at hmem
      rcases hmem with h | h | h
      · exact ne_of_head_append _ _ _ _ 'P' 'L' _ _ rfl rfl (by decide) h
      · exact ne_of_head_append _ _ _ _ 'P' 'C' _ _ rfl rfl (by decide) h
      · exact ne_of_head_append _ _ _ _ 'P' 'V' _ _ rfl rfl (by decide) h
  · generalize (lookupState store (normSid call_sid)).getD ({} : CallRecord) = old
    simp only [recordingLines]
    by_cases hc : recIntent intentQ = "emergency" ∨ old.path = some "emergency"
    · rw [if_pos hc]
      refine iff_of_true ?_ hc
      simp
    · rw [if_neg hc]
      refine iff_of_false ?_ hc
      rw [show PRACTICE_NAME ++ " — After-hours VOICEMAIL" =
        "Luke's Office — After-hours VOICEMAIL" from rfl]
      intro hmem
      simp only [List.mem_cons, List.not_mem_nil, or_false] at hmem
      rcases hmem with h | h | h
      · exact ne_of_head_append _ _ _ _ 'S' 'L' _ _ rfl rfl (by decide) h
      · exact ne_of_head_append _ _ _ _ 'S' 'C' _ _ rfl rfl (by decide) h
      · exact ne_of_head_append _ _ _ _ 'S' 'V' _ _ rfl rfl (by decide) h
  · cases hl : lookupState store (normSid call_sid) <;>
      simp [recording_complete, _get_state, hl]

/-- C7: for every recording-complete callback, the notification lines always
contain the caller's number; the voicemail line uses the literal fallback
"(no recording url)" exactly when no (non-empty) recording locator was
provided (Python falsiness: absent `RecordingUrl` or the empty string), and
whenever a locator is present the link is the locator with ".mp3" appended
and the fallback literal does not occur among the lines.  The last conjunct
ties the lines to the message the handler hands to the office notifier. -/
theorem c7_voicemail_link_fallback (env : Env) (store : Store) (recording_url : Option String)
    (from_number call_sid : String) (intentQ : Option String) :
    ("Caller: " ++ from_number) ∈
      recordingLines (recIntent intentQ)
        { (lookupState store (normSid call_sid)).getD {} with
            from_number := some from_number,
            recording_url := some recording_url,
            intent := some (recIntent intentQ) } from_number recording_url ∧
    ("Voicemail: " ++ recLink recording_url) ∈
      recordingLines (recIntent intentQ)
        { (lookupState store (normSid call_sid)).getD {} with
            from_number := some from_number,
            recording_url := some recording_url,
            intent := some (recIntent intentQ) } from_number recording_url ∧
    (recLink recording_url = "(no recording url)" ↔
      (recording_url = none ∨ recording_url = some "")) ∧
    ("Voicemail: (no recording url)" ∈
      recordingLines (recIntent intentQ)
        { (lookupState store (normSid call_sid)).getD {} with
            from_number := some from_number,
            recording_url := some recording_url,
            intent := some (recIntent intentQ) } from_number recording_url ↔
      (recording_url = none ∨ recording_url = some "")) ∧
    (∀ u : String, recording_url = some u → u ≠ "" →
      recLink recording_url = u ++ ".mp3") ∧
    (recording_complete env store recording_url from_number call_sid intentQ).2.2.head? =
      some (Effect.notify (String.intercalate "\n"
        (recordingLines (recIntent intentQ)
          { (lookupState store (normSid call_sid)).getD {} with
              from_number := some from_number,
              recording_url := some recording_url,
              intent := some (recIntent intentQ) } from_number recording_url))) := by
  refine ⟨?_, ?_, ?_, ?_, ?_, ?_⟩
  · generalize (lookupState store (normSid call_sid)).getD ({} : CallRecord) = old
    simp only [recordingLines]
    by_cases hc : recIntent intentQ = "emergency" ∨ old.path = some "emergency"
    · rw [if_pos hc]; simp
    · rw [if_neg hc]; simp
  · generalize (lookupState store (normSid call_sid)).getD ({} : CallRecord) = old
    simp only [recordingLines]
    by_cases hc : recIntent intentQ = "emergency" ∨ old.path = some "emergency"
    · rw [if_pos hc]; simp
    · rw [if_neg hc]; simp
  · rcases recording_url with _ | u
    · simp [recLink]
    · by_cases hu : u = ""
      · simp [recLink, hu]
      · refine iff_of_false ?_ (by simp [hu])
        simp only [recLink, if_neg hu]
        exact mp3_ne_norec u
  · rcases recording_url with _ | u
    · refine iff_of_true ?_ (Or.inl rfl)
      rw [show ("Voicemail: (no recording url)" : String) =
        "Voicemail: " ++ recLink none from rfl]
      generalize (lookupState store (normSid call_sid)).getD ({} : CallRecord) = old
      simp only [recordingLines]
      by_cases hc : recIntent intentQ = "emergency" ∨ old.path = some "emergency"
      · rw [if_pos hc]; simp
      · rw [if_neg hc]; simp
    · by_cases hu : u = ""
      · subst hu
        refine iff_of_true ?_ (Or.inr rfl)
        rw [show ("Voicemail: (no recording url)" : String) =
          "Voicemail: " ++ recLink (some "") from rfl]
        generalize (lookupState store (normSid call_sid)).getD ({} : CallRecord) = old
        simp only [recordingLines]
        by_cases hc : recIntent intentQ = "emergency" ∨ old.path = some "emergency"
        · rw [if_pos hc]; simp
        · rw [if_neg hc]; simp
      · refine iff_of_false ?_ (by simp [hu])
        generalize (lookupState store (normSid call_sid)).getD ({} : CallRecord) = old
        simp only [recordingLines, recLink, if_neg hu]
        rw [show PRACTICE_NAME ++ " — After-hours VOICEMAIL" =
          "Luke's Office — After-hours VOICEMAIL" from rfl]
        rw [show ("Voicemail: (no recording url)" : String) =
          "Voicemail: " ++ "(no recording url)" from rfl]
        intro hmem
        by_cases hc : recIntent intentQ = "emergency" ∨ old.path = some "emergency"
        · rw [if_pos hc] at hmem
          rw [show ∀ (a b c p s : String),
              (List.take 2 [a, b, c] ++ [p, s]) ++ List.drop 2 [a, b, c] =
                [a, b, p, s, c] from fun _ _ _ _ _ => rfl] at hmem
          simp only [List.mem_cons, List.not_mem_nil, or_false] at hmem
          rcases hmem with h | h | h | h | h
          · exact ne_of_head_append _ _ _ _ 'V' 'L' _ _ rfl rfl (by decide) h
          · exact ne_of_head_append _ _ _ _ 'V' 'C' _ _ rfl rfl (by decide) h
          · exact ne_of_head_append _ _ _ _ 'V' 'P' _ _ rfl rfl (by decide) h
          · exact ne_of_head_append _ _ _ _ 'V' 'S' _ _ rfl rfl (by decide) h
          · exact mp3_ne_norec u (string_append_left_cancel h).symm
        · rw [if_neg hc] at hmem
          simp only [List.mem_cons, List.not_mem_nil, or_false] at hmem
          rcases hmem with h | h | h
          · exact ne_of_head_append _ _ _ _ 'V' 'L' _ _ rfl rfl (by decide) h
          · exact ne_of_head_append _ _ _ _ 'V' 'C' _ _ rfl rfl (by decide) h
          · exact mp3_ne_norec u (string_append_left_cancel h).symm
  · intro u hu hne
    subst hu
    simp [recLink, hne]
  · cases hl : lookupState store (normSid call_sid) <;>
      simp [recording_complete, _get_state, hl]

/-- Witness for C7 at a present locator and at an absent one. -/
theorem c7_voicemail_link_fallback_witness :
    recLink (some "https://api.twilio.com/RE1") = "https://api.twilio.com/RE1" ++ ".mp3" ∧
    (recLink none = "(no recording url)" ↔ ((none : Option String) = none ∨
      (none : Option String) = some "")) := by
  exact ⟨(c7_voicemail_link_fallback {} [] (some "https://api.twilio.com/RE1")
      "+15550001111" "CA7" (some "general")).2.2.2.2.1
      "https://api.twilio.com/RE1" rfl (by decide),
    (c7_voicemail_link_fallback {} [] none "+15550001111" "CA7" (some "general")).2.2.1⟩
